import Mathlib

/-
  A verification development for the PyLoopKit carbohydrate-absorption and
  dose-query code (carb_math.py, dose_store.py).

  Modelling conventions:
  * Times (datetime values) are rationals counting minutes since an arbitrary
    epoch; `timedelta(minutes = m)` is addition of `m`.
  * Python floats are modelled by ℚ.  Ordinary arithmetic uses Lean's total
    division on ℚ; wherever a claim is about faulting (ZeroDivisionError,
    IndexError, AssertionError, schedule lookup failure) a checked variant
    returning `Except String _` is used, which errors exactly where the
    Python raises.
  * The parallel-array ("columnar") style of the source is kept: entries are
    addressed by index into equal-length lists, and the mutable per-entry
    accumulators of `map_` become an explicit state record threaded through
    the sweep.
-/

namespace PyLoopKit

/-- Modelled from the spec: the external time-arithmetic collaborator
`time_interval_since(a, b) -> seconds` (date.py is not under src/).  With
times measured in minutes, the signed distance from `b` to `a` in seconds is
`(a - b) * 60`. -/
def time_interval_since (a b : ℚ) : ℚ :=
  (a - b) * 60

/-- carb_math.linear_percent_absorption_at_time: percent of absorbed carbs
under the linear model; 0 for `time ≤ 0`, `time / absorption_time` on
`0 < time < absorption_time`, and 1 afterwards. -/
def linear_percent_absorption_at_time (time absorption_time : ℚ) : ℚ :=
  if time ≤ 0 then 0
  else if time < absorption_time then time / absorption_time
  else 1

/-- carb_math.linearly_absorbed_carbs: grams absorbed after `time` minutes
under the linear model. -/
def linearly_absorbed_carbs (total time absorption_time : ℚ) : ℚ :=
  total * linear_percent_absorption_at_time time absorption_time

/-- List update at an index; the identity when the index is out of range
(our uses always stay in range). -/
def modifyAt {α : Type} (l : List α) (i : ℕ) (f : α → α) : List α :=
  match l, i with
  | [], _ => []
  | a :: t, 0 => f a :: t
  | a :: t, n + 1 => a :: modifyAt t n f

/-- Python's `sys.float_info.epsilon` for IEEE-754 doubles. -/
def float_epsilon : ℚ := 1 / 2 ^ 52

/-- The mutable per-entry accumulators of carb_math.map_ (lines 134-139):
observed effects, completion dates and the three observed-timeline lists,
all indexed by carb-entry position. -/
structure SweepState where
  observed_effects : List ℚ
  observed_completion_dates : List (Option ℚ)
  observed_timeline_starts : List (List ℚ)
  observed_timeline_ends : List (List ℚ)
  observed_timeline_carb_values : List (List ℚ)
deriving Repr, DecidableEq

/-- The accumulators as map_ initialises them for `n` carb entries. -/
def initial_sweep_state (n : ℕ) : SweepState :=
  { observed_effects := List.replicate n 0
    observed_completion_dates := List.replicate n none
    observed_timeline_starts := List.replicate n []
    observed_timeline_ends := List.replicate n []
    observed_timeline_carb_values := List.replicate n [] }

/-- carb_math.map_.add_next_effect (lines 145-163): apply an effect amount to
entry `entry_index`'s accumulators.  The guard is the source's
`if carb_entry_starts[entry_index] < start: return`; while the completion
date is unset the timeline is extended and, once the accumulated effect
reaches the entry's expected total, the completion date is set to the sample
end. -/
def add_next_effect (carb_entry_starts builder_carb_sensitivities
    entry_effects : List ℚ) (st : SweepState)
    (entry_index : ℕ) (effect start_ end_ : ℚ) : SweepState :=
  if carb_entry_starts.getD entry_index 0 < start_ then st
  else
    let new_observed := st.observed_effects.getD entry_index 0 + effect
    let st1 := { st with
      observed_effects := st.observed_effects.set entry_index new_observed }
    match st.observed_completion_dates.getD entry_index none with
    | some _ => st1
    | none =>
      let st2 := { st1 with
        observed_timeline_starts :=
          modifyAt st1.observed_timeline_starts entry_index
            (fun l => l ++ [start_])
        observed_timeline_ends :=
          modifyAt st1.observed_timeline_ends entry_index
            (fun l => l ++ [end_])
        observed_timeline_carb_values :=
          modifyAt st1.observed_timeline_carb_values entry_index
            (fun l =>
              l ++ [effect / builder_carb_sensitivities.getD entry_index 0]) }
      if new_observed ≥ entry_effects.getD entry_index 0 then
        { st2 with observed_completion_dates :=
            st2.observed_completion_dates.set entry_index (some end_) }
      else st2

/-- carb_math.map_ lines 183-197: the hand-rolled reduce over the active
entries.  `reduce_func previous i = previous + quantity_i / maxAbsorbTime_i`
is the source's `reduce_func`; the loop keeps `previous` (first component)
and accumulates `total_rate += rate_increase` (second component), and the
function returns the final `total_rate`. -/
def total_rate_of (carb_entry_quantities builder_max_absorb_times : List ℚ)
    (active_builders : List ℕ) : ℚ :=
  (active_builders.foldl
    (fun acc i =>
      let rate_increase :=
        acc.1 + carb_entry_quantities.getD i 0
          / builder_max_absorb_times.getD i 0
      (rate_increase, acc.2 + rate_increase))
    ((0 : ℚ), (0 : ℚ))).2

/-- carb_math.map_ lines 203-211: the source's `partial_effect_value`
expression — the portion of the sample effect allocated to one entry,
`min(remaining_effect, (q / t) / total_rate * effect_value if
total_rate != 0 and effect_value != 0 else 0)`. -/
def apportioned_effect_value (remaining_effect quantity max_absorb_time
    total_rate effect_value : ℚ) : ℚ :=
  min remaining_effect
    (if total_rate ≠ 0 ∧ effect_value ≠ 0 then
      quantity / max_absorb_time / total_rate * effect_value
    else 0)

/-- carb_math.map_ lines 199-234: the waterfall allocation over the active
entries for one effect sample.  `active_len` is `len(active_builders)` of the
full active list; the overrun branch mirrors the source's
`effect_value > sys.float_info.epsilon and b_index == (len(active_builders) - 1)`. -/
def distribute_loop (carb_entry_starts carb_entry_quantities
    builder_carb_sensitivities builder_max_absorb_times
    entry_effects : List ℚ) (active_len : ℕ) (effect_start effect_end : ℚ) :
    List ℕ → ℚ → ℚ → SweepState → SweepState
  | [], _, _, st => st
  | b_index :: rest, effect_value, total_rate, st =>
    let entry_effect := carb_entry_quantities.getD b_index 0
      * builder_carb_sensitivities.getD b_index 0
    let remaining_effect := max entry_effect 0
    let value_portion := apportioned_effect_value remaining_effect
      (carb_entry_quantities.getD b_index 0)
      (builder_max_absorb_times.getD b_index 0) total_rate effect_value
    let total_rate2 := total_rate - carb_entry_quantities.getD b_index 0
      / builder_max_absorb_times.getD b_index 0
    let effect_value2 := effect_value - value_portion
    let st2 := add_next_effect carb_entry_starts builder_carb_sensitivities
      entry_effects st b_index value_portion effect_start effect_end
    let st3 :=
      if effect_value2 > float_epsilon ∧ b_index = active_len - 1 then
        add_next_effect carb_entry_starts builder_carb_sensitivities
          entry_effects st2 b_index effect_value2 effect_start effect_end
      else st2
    distribute_loop carb_entry_starts carb_entry_quantities
      builder_carb_sensitivities builder_max_absorb_times entry_effects
      active_len effect_start effect_end rest effect_value2 total_rate2 st3

/-- carb_math.map_ lines 165-234: process one effect sample — skip degenerate
samples, select the active entries, clamp the effect value to be
non-negative, compute the total rate and run the waterfall allocation. -/
def process_sample (carb_entry_starts carb_entry_quantities
    builder_carb_sensitivities builder_max_absorb_times builder_max_end_dates
    entry_effects : List ℚ) (st : SweepState)
    (effect_start effect_end effect_value_in : ℚ) : SweepState :=
  if effect_start ≥ effect_end then st
  else
    let active_builders := (List.range carb_entry_starts.length).filter
      (fun j => decide (effect_start < builder_max_end_dates.getD j 0
        ∧ effect_start ≥ carb_entry_starts.getD j 0))
    let effect_value := max 0 effect_value_in
    let total_rate := total_rate_of carb_entry_quantities
      builder_max_absorb_times active_builders
    distribute_loop carb_entry_starts carb_entry_quantities
      builder_carb_sensitivities builder_max_absorb_times entry_effects
      active_builders.length effect_start effect_end
      active_builders effect_value total_rate st

/-- carb_math.map_'s sweep over the whole effect timeline, folding
`process_sample` over the parallel (start, end, value) sample lists. -/
def run_sweep (carb_entry_starts carb_entry_quantities
    builder_carb_sensitivities builder_max_absorb_times builder_max_end_dates
    entry_effects : List ℚ)
    (effect_starts effect_ends effect_values : List ℚ)
    (st : SweepState) : SweepState :=
  (effect_starts.zip (effect_ends.zip effect_values)).foldl
    (fun s sample =>
      process_sample carb_entry_starts carb_entry_quantities
        builder_carb_sensitivities builder_max_absorb_times
        builder_max_end_dates entry_effects s
        sample.1 sample.2.1 sample.2.2)
    st

/-- The per-entry absorption record built by carb_math.map_.absorption_result
(lines 236-279).  Field order matches the source list:
slot 0 (named "observed grams absorbed" by the docstring), clamped grams,
total carbs, remaining carbs, observed absorption start, observed absorption
end, estimated time remaining. -/
structure AbsorptionResult where
  grams_slot0 : ℚ
  clamped_grams : ℚ
  total_grams : ℚ
  remaining_grams : ℚ
  observed_start : ℚ
  observed_end : ℚ
  estimated_time_remaining : ℚ
deriving Repr, DecidableEq

/-- carb_math.map_.absorption_result (lines 236-279) as a function of the
entry's builder data: quantity, max absorption time, accumulated observed
effect, carb sensitivity, optional completion date, last effect date, entry
start and delay.  Division is ℚ division; the checked variant below captures
the faulting behaviour. -/
def absorption_result (quantity max_absorb_time observed_effect
    carb_sensitivity : ℚ) (completion_date : Option ℚ)
    (last_effect_date entry_start delay : ℚ) : AbsorptionResult :=
  let observed_grams := observed_effect / carb_sensitivity
  let entry_grams := quantity
  let time := time_interval_since last_effect_date entry_start / 60 - delay
  let min_predicted_grams :=
    linearly_absorbed_carbs entry_grams time max_absorb_time
  let clamped_grams := min entry_grams (max min_predicted_grams observed_grams)
  let min_absorption_rate := quantity / max_absorb_time
  let estimated_time_remaining :=
    if min_absorption_rate > 0 then
      (entry_grams - clamped_grams) / min_absorption_rate
    else 0
  { grams_slot0 := entry_grams
    clamped_grams := clamped_grams
    total_grams := entry_grams
    remaining_grams := entry_grams - clamped_grams
    observed_start := entry_start
    observed_end := completion_date.getD last_effect_date
    estimated_time_remaining := estimated_time_remaining }

/-- absorption_result with Python's faulting behaviour made explicit: the
source divides `observed_effects / builder_carb_sensitivities` (line 240) and
`carb_entry_quantities / builder_max_absorb_times` (line 261)
unconditionally, so a zero carb sensitivity or zero max absorption time
raises ZeroDivisionError; the only guarded division is the estimated time
remaining (guarded by `min_absorption_rate > 0`, line 266). -/
def absorption_result_checked (quantity max_absorb_time observed_effect
    carb_sensitivity : ℚ) (completion_date : Option ℚ)
    (last_effect_date entry_start delay : ℚ) :
    Except String AbsorptionResult :=
  if carb_sensitivity = 0 then .error "ZeroDivisionError"
  else if max_absorb_time = 0 then .error "ZeroDivisionError"
  else .ok (absorption_result quantity max_absorb_time observed_effect
    carb_sensitivity completion_date last_effect_date entry_start delay)

/-- carb_math.map_.clamped_timeline (lines 283-306): the recorded
observed-absorption timeline triple, exposed only when the observed grams
(`observed_effect / carb_sensitivity`) reach the linear-model minimum,
otherwise `none`. -/
def clamped_timeline (quantity max_absorb_time observed_effect
    carb_sensitivity last_effect_date entry_start delay : ℚ)
    (timeline_starts timeline_ends timeline_values : List ℚ) :
    Option (List ℚ × List ℚ × List ℚ) :=
  let entry_grams := quantity
  let time := time_interval_since last_effect_date entry_start / 60 - delay
  let min_predicted_grams :=
    linearly_absorbed_carbs entry_grams time max_absorb_time
  if observed_effect / carb_sensitivity ≥ min_predicted_grams then
    some (timeline_starts, timeline_ends, timeline_values)
  else none

/-- carb_math.map_.entry_properties (lines 308-314). -/
structure EntryProperties where
  carb_sensitivity : ℚ
  max_absorb_time : ℚ
  max_end_date : ℚ
  last_effect_date : ℚ
  entry_effect : ℚ
deriving Repr, DecidableEq

/-- Modelled from the spec: the temporal schedule lookup
`find_ratio_at_time(starts, ends, values, t)` (insulin_math.py is not under
src/).  Per spec section 4.1: when `ends` is empty, entry `i` covers
`[start_i, start_(i+1))` and the last entry extends to infinity; otherwise
entry `i` covers `[start_i, end_i)`; a query time covered by no entry fails
with NotFound. -/
def find_ratio_at_time (starts ends values : List ℚ) (t : ℚ) :
    Except String ℚ :=
  let covers : ℕ → Bool := fun i =>
    match starts.get? i with
    | none => false
    | some s =>
      if ends.isEmpty then
        decide (s ≤ t) &&
          (match starts.get? (i + 1) with
           | some s2 => decide (t < s2)
           | none => true)
      else
        match ends.get? i with
        | some e => decide (s ≤ t) && decide (t < e)
        | none => false
  match (List.range starts.length).find? covers with
  | some i =>
    match values.get? i with
    | some v => .ok v
    | none => .error "NotFound"
  | none => .error "NotFound"

/-- carb_math.map_ lines 94-108: one element of
`builder_carb_sensitivities` — the sensitivity schedule value at the entry
start divided by the carb-ratio schedule value there (Python raises
ZeroDivisionError on a zero carb ratio, and propagates lookup failures). -/
def carb_sensitivity_at (carb_ratio_starts carb_ratios sensitivity_starts
    sensitivity_ends sensitivity_values : List ℚ) (t : ℚ) :
    Except String ℚ :=
  match find_ratio_at_time sensitivity_starts sensitivity_ends
    sensitivity_values t with
  | .error e => .error e
  | .ok sens =>
    match find_ratio_at_time carb_ratio_starts [] carb_ratios t with
    | .error e => .error e
    | .ok ratio =>
      if ratio = 0 then Except.error "ZeroDivisionError"
      else .ok (sens / ratio)

/-- carb_math.map_ (lines 18-328) assembled end to end, with Python's
faulting behaviour modelled in `Except`: shape mismatches are the source's
asserts (AssertionError); empty carb entries, carb ratios or sensitivities
return `([], [], [])` (lines 86-89); the sensitivity build (lines 94-108)
propagates schedule-lookup failures and a zero carb ratio; computing
`last_effect_dates` (lines 124-127) indexes `effect_ends[len(effect_ends)-1]`,
which on an empty effect timeline raises IndexError; the absorption results
use the checked divisions.  A missing (None) per-entry absorption time is
modelled as 0, which is falsy in Python just as None is, so
`carb_entry_absorptions[i] or default_absorption_time` becomes a test
against 0. -/
def map_checked
    (carb_entry_starts carb_entry_quantities carb_entry_absorptions : List ℚ)
    (effect_starts effect_ends effect_values : List ℚ)
    (carb_ratio_starts carb_ratios : List ℚ)
    (sensitivity_starts sensitivity_ends sensitivity_values : List ℚ)
    (absorption_time_overrun default_absorption_time delay : ℚ) :
    Except String
      (List AbsorptionResult × List (Option (List ℚ × List ℚ × List ℚ))
        × List EntryProperties) :=
  if ¬ (carb_entry_starts.length = carb_entry_quantities.length
      ∧ carb_entry_quantities.length = carb_entry_absorptions.length) then
    .error "AssertionError"
  else if ¬ (effect_starts.length = effect_ends.length
      ∧ effect_ends.length = effect_values.length) then
    .error "AssertionError"
  else if ¬ (carb_ratio_starts.length = carb_ratios.length) then
    .error "AssertionError"
  else if ¬ (sensitivity_starts.length = sensitivity_ends.length
      ∧ sensitivity_ends.length = sensitivity_values.length) then
    .error "AssertionError"
  else if carb_entry_starts.isEmpty ∨ carb_ratios.isEmpty
      ∨ sensitivity_starts.isEmpty then
    .ok ([], [], [])
  else
    let builder_entry_indexes := List.range carb_entry_starts.length
    match builder_entry_indexes.mapM (fun i =>
      carb_sensitivity_at carb_ratio_starts carb_ratios sensitivity_starts
        sensitivity_ends sensitivity_values (carb_entry_starts.getD i 0)) with
    | .error e => .error e
    | .ok builder_carb_sensitivities =>
      let builder_max_absorb_times := builder_entry_indexes.map (fun i =>
        (if carb_entry_absorptions.getD i 0 = 0 then default_absorption_time
         else carb_entry_absorptions.getD i 0) * absorption_time_overrun)
      let builder_max_end_dates := builder_entry_indexes.map (fun i =>
        carb_entry_starts.getD i 0
          + (builder_max_absorb_times.getD i 0 + delay))
      match effect_ends.getLast? with
      | none => Except.error "IndexError"
      | some last_end =>
        let last_effect_dates := builder_entry_indexes.map (fun _ => last_end)
        let entry_effects := builder_entry_indexes.map (fun i =>
          carb_entry_quantities.getD i 0
            * builder_carb_sensitivities.getD i 0)
        let st := run_sweep carb_entry_starts carb_entry_quantities
          builder_carb_sensitivities builder_max_absorb_times
          builder_max_end_dates entry_effects
          effect_starts effect_ends effect_values
          (initial_sweep_state carb_entry_starts.length)
        match builder_entry_indexes.mapM (fun i =>
          absorption_result_checked (carb_entry_quantities.getD i 0)
            (builder_max_absorb_times.getD i 0)
            (st.observed_effects.getD i 0)
            (builder_carb_sensitivities.getD i 0)
            (st.observed_completion_dates.getD i none)
            (last_effect_dates.getD i 0)
            (carb_entry_starts.getD i 0) delay) with
        | .error e => .error e
        | .ok absorptions =>
          let timelines := builder_entry_indexes.map (fun i =>
            clamped_timeline (carb_entry_quantities.getD i 0)
              (builder_max_absorb_times.getD i 0)
              (st.observed_effects.getD i 0)
              (builder_carb_sensitivities.getD i 0)
              (last_effect_dates.getD i 0) (carb_entry_starts.getD i 0) delay
              (st.observed_timeline_starts.getD i [])
              (st.observed_timeline_ends.getD i [])
              (st.observed_timeline_carb_values.getD i []))
          let entries : List EntryProperties :=
            builder_entry_indexes.map (fun i =>
              { carb_sensitivity := builder_carb_sensitivities.getD i 0
                max_absorb_time := builder_max_absorb_times.getD i 0
                max_end_date := builder_max_end_dates.getD i 0
                last_effect_date := last_effect_dates.getD i 0
                entry_effect := entry_effects.getD i 0 })
          .ok (absorptions, timelines, entries)

/-- dose_store.get_glucose_effects lines 64-77: the dose-processing window
start, back-dated from the requested start by the model's duration of
action — `insulin_model[0]` hours (60 minutes each) for the one-parameter
Walsh model, `insulin_model[0]` minutes otherwise.  An empty model list
would raise IndexError at `insulin_model[0]`. -/
def dose_window_start (insulin_model : List ℚ) (start_date : ℚ) :
    Except String ℚ :=
  match insulin_model with
  | [] => .error "IndexError"
  | [dia] => .ok (start_date - 60 * dia)
  | dia :: _ :: _ => .ok (start_date - dia)

/-- Modelled from the spec: loop_math.filter_date_range (loop_math.py is not
under src/).  Spec section 4.6: the aggregation layer "filters the result to
[windowStart, windowEnd)"; a sample is kept exactly when its date is at
least the window start and, when an end is given, before the window end. -/
def filter_date_range (dates values : List ℚ) (start_date : ℚ)
    (end_date : Option ℚ) : List ℚ × List ℚ :=
  let keep : ℚ → Bool := fun d =>
    decide (start_date ≤ d) &&
      (match end_date with
       | some e => decide (d < e)
       | none => true)
  (((dates.zip values).filter (fun p => keep p.1)).map Prod.fst,
   ((dates.zip values).filter (fun p => keep p.1)).map Prod.snd)

/-- dose_store.get_glucose_effects (lines 21-139).  The dose-processing
pipeline between the back-dating and the final filter —
filter_date_range_for_doses, reconciled, sort_dose_lists, annotated, trim
and glucose_effects, all in modules not under src/ — is abstracted as the
`pipeline` parameter: a function of the back-dated window start producing
the glucose-effect (dates, values) pair, with every other input (doses,
schedules, model, delay, end date) fixed inside it.  The back-dating (lines
66-77) and the final window filter (lines 127-139) are concrete. -/
def get_glucose_effects (pipeline : ℚ → List ℚ × List ℚ)
    (insulin_model : List ℚ) (start_date : ℚ) (end_date : Option ℚ) :
    Except String (List ℚ × List ℚ) :=
  match dose_window_start insulin_model start_date with
  | .error e => .error e
  | .ok dose_start =>
    let ge := pipeline dose_start
    .ok (filter_date_range ge.1 ge.2 start_date end_date)

theorem linear_percent_nonneg (time T : ℚ) (hT : 0 < T) :
    0 ≤ linear_percent_absorption_at_time time T := by
  unfold linear_percent_absorption_at_time
  split
  · exact le_refl 0
  · split
    · next h1 h2 =>
      exact le_of_lt (div_pos (lt_of_not_le h1) hT)
    · exact zero_le_one

theorem linear_percent_le_one (time T : ℚ) (hT : 0 < T) :
    linear_percent_absorption_at_time time T ≤ 1 := by
  unfold linear_percent_absorption_at_time
  split
  · exact zero_le_one
  · split
    · next h1 h2 =>
      exact le_of_lt ((div_lt_one hT).mpr h2)
    · exact le_refl 1

/-- C8: for every positive absorption time `T`,
`linear_percent_absorption_at_time` is 0 at time 0 (and for all `t ≤ 0`),
1 at time `T` (and for all `t ≥ T`), and strictly increasing, equal to
`t / T`, on `0 < t < T`. -/
theorem C8_linear_model_round_trip (T : ℚ) (hT : 0 < T) :
    linear_percent_absorption_at_time 0 T = 0 ∧
    linear_percent_absorption_at_time T T = 1 ∧
    (∀ t : ℚ, 0 < t → t < T → linear_percent_absorption_at_time t T = t / T) ∧
    (∀ t1 t2 : ℚ, 0 < t1 → t1 < t2 → t2 < T →
      linear_percent_absorption_at_time t1 T
        < linear_percent_absorption_at_time t2 T) ∧
    (∀ t : ℚ, t ≤ 0 → linear_percent_absorption_at_time t T = 0) ∧
    (∀ t : ℚ, T ≤ t → linear_percent_absorption_at_time t T = 1) := by
  refine ⟨?_, ?_, ?_, ?_, ?_, ?_⟩
  · simp [linear_percent_absorption_at_time]
  · simp [linear_percent_absorption_at_time, not_le.mpr hT]
  · intro t h1 h2
    simp [linear_percent_absorption_at_time, not_le.mpr h1, h2]
  · intro t1 t2 h1 h12 h2T
    have h1T : t1 < T := lt_trans h12 h2T
    have h02 : 0 < t2 := lt_trans h1 h12
    simp only [linear_percent_absorption_at_time, not_le.mpr h1,
      not_le.mpr h02, if_false, h1T, h2T, if_true]
    exact (div_lt_div_iff_of_pos_right hT).mpr h12
  · intro t ht
    simp [linear_percent_absorption_at_time, ht]
  · intro t ht
    have : ¬ t ≤ 0 := not_le.mpr (lt_of_lt_of_le hT ht)
    simp [linear_percent_absorption_at_time, this, not_lt.mpr ht]

/-- Witness: the C8 round-trip facts instantiated at `T = 180` and sample
times 30 and 60. -/
theorem C8_linear_model_round_trip_witness :
    linear_percent_absorption_at_time 0 180 = 0 ∧
    linear_percent_absorption_at_time 180 180 = 1 ∧
    linear_percent_absorption_at_time 30 180
      < linear_percent_absorption_at_time 60 180 := by
  obtain ⟨h0, h1, _, hmono, _, _⟩ :=
    C8_linear_model_round_trip 180 (by norm_num)
  exact ⟨h0, h1, hmono 30 60 (by norm_num) (by norm_num) (by norm_num)⟩

/-- C1: the claim says the `totalRate` used to split a sample's effect is the
sum over the active entries of `quantity_j / maxAbsorptionTime_j`.  Evaluating
the source's loop (carb_math.py lines 192-197) on two active entries of 20 g
and 30 g with 180-minute max absorption times: the loop adds each running
prefix sum into `total_rate`, giving `2*(20/180) + 30/180 = 7/18`, while the
sum of the two maximum absorption rates is `20/180 + 30/180 = 5/18` — the
code double-counts every rate but the last, contradicting its own comment
"Sum the minimum absorption rates of each active entry". -/
theorem C1_total_rate_is_not_the_rate_sum :
    total_rate_of [20, 30] [180, 180] [0, 1] = 2 * (20 / 180) + 30 / 180 ∧
    (([0, 1] : List ℕ).map
        (fun i => ([20, 30] : List ℚ).getD i 0
          / ([180, 180] : List ℚ).getD i 0)).sum
      = 20 / 180 + 30 / 180 ∧
    total_rate_of [20, 30] [180, 180] [0, 1]
      ≠ (([0, 1] : List ℕ).map
          (fun i => ([20, 30] : List ℚ).getD i 0
            / ([180, 180] : List ℚ).getD i 0)).sum := by
  refine ⟨by norm_num [total_rate_of], by norm_num, ?_⟩
  norm_num [total_rate_of]

/-- C2: the claim says add_next_effect applies the amount exactly when
`carbEntryStart ≤ sampleStart`.  The source's guard (carb_math.py line 146)
is `if carb_entry_starts[entry_index] < start: return` — the inverse:
for an entry starting at time 0 with expected effect 10 and sensitivity 1,
an amount of 5 on the sample [30, 60) (sample at/after the entry start,
which the claim says always contributes) is dropped, while the same amount
on the sample [-10, 0) (entirely before the entry start, which the claim
says never contributes) is accumulated. -/
theorem C2_add_next_effect_guard_is_inverted :
    (add_next_effect [0] [1] [10] (initial_sweep_state 1)
        0 5 30 60).observed_effects = [0] ∧
    (add_next_effect [0] [1] [10] (initial_sweep_state 1)
        0 5 (-10) 0).observed_effects = [5] := by
  constructor
  · norm_num [add_next_effect, initial_sweep_state]
  · norm_num [add_next_effect, initial_sweep_state, modifyAt]

/-- C3: the claim says a residual effect above machine epsilon is credited
to the last active entry and to no other.  Entries: index 0 (10 g at time
-100, window long closed), indexes 1 and 2 (20 g and 30 g at time 0, both
active, sensitivities 1, max absorption times 180).  For the sample
[0, 30) with value 60 the active list is [1, 2], whose last entry is 2, but
the source's test `b_index == (len(active_builders) - 1)` (line 227)
compares the entry index with the COUNT of active entries minus one, so the
running residual 300/7 is credited mid-loop to entry 1 (first active entry,
lifting it to 60 and marking it complete at time 30), entry 2 receives only
its waterfall portion 180/7, and the final residual 120/7 is credited to no
one.  The total credited, 600/7 > 60, even exceeds the sample's whole
effect value. -/
theorem C3_overrun_credited_to_wrong_entry :
    (process_sample [-100, 0, 0] [10, 20, 30] [1, 1, 1] [10, 180, 180]
        [-80, 190, 190] [10, 20, 30] (initial_sweep_state 3)
        0 30 60).observed_effects = [0, 60, 180 / 7] ∧
    (process_sample [-100, 0, 0] [10, 20, 30] [1, 1, 1] [10, 180, 180]
        [-80, 190, 190] [10, 20, 30] (initial_sweep_state 3)
        0 30 60).observed_completion_dates = [none, some 30, none] := by
  constructor
  · norm_num [process_sample, distribute_loop, add_next_effect,
      initial_sweep_state, modifyAt, total_rate_of, apportioned_effect_value,
      float_epsilon, List.range_succ, List.filter, List.replicate, List.set]
  · norm_num [process_sample, distribute_loop, add_next_effect,
      initial_sweep_state, modifyAt, total_rate_of, apportioned_effect_value,
      float_epsilon, List.range_succ, List.filter, List.replicate, List.set]

theorem linearly_absorbed_nonneg (q time T : ℚ) (hq : 0 ≤ q) (hT : 0 < T) :
    0 ≤ linearly_absorbed_carbs q time T :=
  mul_nonneg hq (linear_percent_nonneg time T hT)

theorem linearly_absorbed_le_total (q time T : ℚ) (hq : 0 ≤ q) (hT : 0 < T) :
    linearly_absorbed_carbs q time T ≤ q := by
  calc linearly_absorbed_carbs q time T
      ≤ q * 1 := mul_le_mul_of_nonneg_left (linear_percent_le_one time T hT) hq
    _ = q := mul_one q

/-- C4: for an entry with non-negative quantity and positive max absorption
time, the absorption result's clamped grams equal
`min(quantity, max(minPredictedGrams, observedGrams))`, lie between 0 and the
total grams, are at least the linear-model minimum at the elapsed time, and
the remaining grams are the total minus the clamped grams. -/
theorem C4_clamped_grams_invariants (quantity max_absorb_time observed_effect
    carb_sensitivity : ℚ) (completion_date : Option ℚ)
    (last_effect_date entry_start delay : ℚ)
    (hq : 0 ≤ quantity) (ht : 0 < max_absorb_time) :
    (absorption_result quantity max_absorb_time observed_effect
        carb_sensitivity completion_date last_effect_date entry_start
        delay).clamped_grams
      = min quantity
          (max (linearly_absorbed_carbs quantity
              (time_interval_since last_effect_date entry_start / 60 - delay)
              max_absorb_time)
            (observed_effect / carb_sensitivity)) ∧
    0 ≤ (absorption_result quantity max_absorb_time observed_effect
        carb_sensitivity completion_date last_effect_date entry_start
        delay).clamped_grams ∧
    (absorption_result quantity max_absorb_time observed_effect
        carb_sensitivity completion_date last_effect_date entry_start
        delay).clamped_grams
      ≤ (absorption_result quantity max_absorb_time observed_effect
        carb_sensitivity completion_date last_effect_date entry_start
        delay).total_grams ∧
    linearly_absorbed_carbs quantity
        (time_interval_since last_effect_date entry_start / 60 - delay)
        max_absorb_time
      ≤ (absorption_result quantity max_absorb_time observed_effect
        carb_sensitivity completion_date last_effect_date entry_start
        delay).clamped_grams ∧
    (absorption_result quantity max_absorb_time observed_effect
        carb_sensitivity completion_date last_effect_date entry_start
        delay).remaining_grams
      = (absorption_result quantity max_absorb_time observed_effect
        carb_sensitivity completion_date last_effect_date entry_start
        delay).total_grams
        - (absorption_result quantity max_absorb_time observed_effect
          carb_sensitivity completion_date last_effect_date entry_start
          delay).clamped_grams := by
  set time := time_interval_since last_effect_date entry_start / 60 - delay
    with htime
  set m := linearly_absorbed_carbs quantity time max_absorb_time with hm
  have hm0 : 0 ≤ m := linearly_absorbed_nonneg quantity time max_absorb_time hq ht
  have hmq : m ≤ quantity :=
    linearly_absorbed_le_total quantity time max_absorb_time hq ht
  refine ⟨rfl, ?_, ?_, ?_, rfl⟩
  · exact le_min hq
      (le_trans hm0 (le_max_left m (observed_effect / carb_sensitivity)))
  · exact min_le_left quantity _
  · exact le_min hmq (le_max_left m (observed_effect / carb_sensitivity))

/-- Witness: the C4 invariants at quantity 10 g, max absorption time 180
minutes, observed effect 5, sensitivity 1, no completion date, last effect
date 190, entry start 0, delay 10. -/
theorem C4_clamped_grams_invariants_witness :
    (absorption_result 10 180 5 1 none 190 0 10).clamped_grams
      = min 10 (max (linearly_absorbed_carbs 10
          (time_interval_since 190 0 / 60 - 10) 180) (5 / 1)) ∧
    0 ≤ (absorption_result 10 180 5 1 none 190 0 10).clamped_grams ∧
    (absorption_result 10 180 5 1 none 190 0 10).clamped_grams
      ≤ (absorption_result 10 180 5 1 none 190 0 10).total_grams ∧
    linearly_absorbed_carbs 10 (time_interval_since 190 0 / 60 - 10) 180
      ≤ (absorption_result 10 180 5 1 none 190 0 10).clamped_grams ∧
    (absorption_result 10 180 5 1 none 190 0 10).remaining_grams
      = (absorption_result 10 180 5 1 none 190 0 10).total_grams
        - (absorption_result 10 180 5 1 none 190 0 10).clamped_grams :=
  C4_clamped_grams_invariants 10 180 5 1 none 190 0 10
    (by norm_num) (by norm_num)

/-- C5: the per-entry observed-absorption timeline returned by map_ is the
recorded sub-interval triple exactly when the observed grams
(`observed_effect / carb_sensitivity`) are at least the linear-model minimum
at the elapsed time, and `none` otherwise. -/
theorem C5_timeline_gated_by_minimum_absorption (quantity max_absorb_time
    observed_effect carb_sensitivity last_effect_date entry_start delay : ℚ)
    (timeline_starts timeline_ends timeline_values : List ℚ) :
    clamped_timeline quantity max_absorb_time observed_effect
        carb_sensitivity last_effect_date entry_start delay
        timeline_starts timeline_ends timeline_values
      = if observed_effect / carb_sensitivity
          ≥ linearly_absorbed_carbs quantity
              (time_interval_since last_effect_date entry_start / 60 - delay)
              max_absorb_time
        then some (timeline_starts, timeline_ends, timeline_values)
        else none := rfl

/-- C10: the absorption record's first element is the entry's total grams —
the same value as its total-carbs element, so the observed grams are not a
field of the result — its observed-start element is the carb entry's own
start time, and its observed-end element is the completion date when one was
recorded and the last effect date otherwise. -/
theorem C10_result_start_end_and_grams_slot (quantity max_absorb_time
    observed_effect carb_sensitivity : ℚ) (completion_date : Option ℚ)
    (last_effect_date entry_start delay d : ℚ) :
    (absorption_result quantity max_absorb_time observed_effect
        carb_sensitivity completion_date last_effect_date entry_start
        delay).grams_slot0 = quantity ∧
    (absorption_result quantity max_absorb_time observed_effect
        carb_sensitivity completion_date last_effect_date entry_start
        delay).grams_slot0
      = (absorption_result quantity max_absorb_time observed_effect
        carb_sensitivity completion_date last_effect_date entry_start
        delay).total_grams ∧
    (absorption_result quantity max_absorb_time observed_effect
        carb_sensitivity completion_date last_effect_date entry_start
        delay).observed_start = entry_start ∧
    (absorption_result quantity max_absorb_time observed_effect
        carb_sensitivity completion_date last_effect_date entry_start
        delay).observed_end = completion_date.getD last_effect_date ∧
    (absorption_result quantity max_absorb_time observed_effect
        carb_sensitivity (some d) last_effect_date entry_start
        delay).observed_end = d ∧
    (absorption_result quantity max_absorb_time observed_effect
        carb_sensitivity none last_effect_date entry_start
        delay).observed_end = last_effect_date :=
  ⟨rfl, rfl, rfl, rfl, rfl, rfl⟩

/-- C6 counterexample: the claim says every division by maxAbsorptionTime is
guarded so that the function never faults, in particular for an entry whose
maxAbsorptionTime is 0.  But absorption_result computes
`min_absorption_rate = quantity / max_absorb_time` unconditionally
(carb_math.py line 261), so an entry with maxAbsorptionTime 0 raises
ZeroDivisionError. -/
theorem C6_division_by_zero_absorb_time_faults :
    absorption_result_checked 10 0 5 1 none 190 0 10
      = .error "ZeroDivisionError" := rfl

/-- C6 amended: the divisions by totalRate (apportionment guard
`total_rate != 0 and effect_value != 0`) and by min_absorption_rate
(guard `min_absorption_rate > 0`) short-circuit to 0, and absorption_result
never faults when the carb sensitivity and max absorption time are nonzero;
the division by maxAbsorptionTime itself is unguarded. -/
theorem C6_guarded_divisions (quantity max_absorb_time observed_effect
    carb_sensitivity last_effect_date entry_start delay total_rate
    effect_value e : ℚ) (completion_date : Option ℚ) :
    (carb_sensitivity ≠ 0 → max_absorb_time ≠ 0 →
      absorption_result_checked quantity max_absorb_time observed_effect
          carb_sensitivity completion_date last_effect_date entry_start delay
        = .ok (absorption_result quantity max_absorb_time observed_effect
            carb_sensitivity completion_date last_effect_date entry_start
            delay)) ∧
    (total_rate = 0 →
      apportioned_effect_value (max e 0) quantity max_absorb_time total_rate
        effect_value = 0) ∧
    (effect_value = 0 →
      apportioned_effect_value (max e 0) quantity max_absorb_time total_rate
        effect_value = 0) ∧
    (quantity / max_absorb_time ≤ 0 →
      (absorption_result quantity max_absorb_time observed_effect
          carb_sensitivity completion_date last_effect_date entry_start
          delay).estimated_time_remaining = 0) := by
  refine ⟨?_, ?_, ?_, ?_⟩
  · intro h1 h2
    simp [absorption_result_checked, h1, h2]
  · intro h
    simp only [apportioned_effect_value, h, ne_eq, not_true_eq_false,
      false_and, if_false]
    exact min_eq_right (le_max_right e 0)
  · intro h
    simp only [apportioned_effect_value, h, ne_eq, not_true_eq_false,
      and_false, if_false]
    exact min_eq_right (le_max_right e 0)
  · intro h
    simp [absorption_result, not_lt.mpr h]

/-- Witness: the C6 guarded-division facts for a 0-gram entry with
sensitivity 1 and absorption time 180 (so both guards trigger and both
checked divisions succeed). -/
theorem C6_guarded_divisions_witness :
    absorption_result_checked 0 180 5 1 none 190 0 10
      = .ok (absorption_result 0 180 5 1 none 190 0 10) ∧
    apportioned_effect_value (max (-3) 0) 0 180 0 0 = 0 ∧
    (absorption_result 0 180 5 1 none 190 0
        10).estimated_time_remaining = 0 := by
  obtain ⟨h1, h2, h3, h4⟩ :=
    C6_guarded_divisions 0 180 5 1 190 0 10 0 0 (-3) none
  exact ⟨h1 (by norm_num) (by norm_num), h2 rfl, h4 (by norm_num)⟩

/-- C7 counterexample: a call with matching input lengths, one carb entry
(10 g at time 0, absorption 180 min), a carb-ratio schedule and a
sensitivity schedule, but an empty effect timeline, does not return zero
observed effects: computing `last_effect_dates` indexes
`effect_ends[len(effect_ends)-1]` (carb_math.py line 125), which on the
empty list raises IndexError. -/
theorem C7_empty_effect_timeline_raises :
    map_checked [0] [10] [180] [] [] [] [0] [10] [0] [1440] [50] 1 180 10
      = .error "IndexError" := rfl

/-- C7 amended: with matching input lengths, empty carb entries, carb ratios
or sensitivities make map_ return `([], [], [])` without raising, but a call
with non-empty carb entries, ratios and sensitivities and an empty effect
timeline never returns normally — it raises (IndexError once the per-entry
sensitivities are built, a lookup failure before that). -/
theorem C7_empty_input_behaviour
    (cs q a es ee ev rs r ss se sv : List ℚ) (overrun dflt delay : ℚ)
    (h1 : cs.length = q.length) (h2 : q.length = a.length)
    (h3 : es.length = ee.length) (h4 : ee.length = ev.length)
    (h5 : rs.length = r.length)
    (h6 : ss.length = se.length) (h7 : se.length = sv.length) :
    (cs = [] ∨ r = [] ∨ ss = [] →
      map_checked cs q a es ee ev rs r ss se sv overrun dflt delay
        = .ok ([], [], [])) ∧
    (cs ≠ [] → r ≠ [] → ss ≠ [] → ee = [] →
      ∀ out, map_checked cs q a es ee ev rs r ss se sv overrun dflt delay
        ≠ .ok out) := by
  constructor
  · rintro (h | h | h)
    · subst h
      have hq : q = [] := List.eq_nil_of_length_eq_zero h1.symm
      have ha : a = [] := List.eq_nil_of_length_eq_zero (hq ▸ h2).symm
      subst hq; subst ha
      simp [map_checked, h3, h4, h5, h6, h7]
    · subst h
      simp [map_checked, h1, h2, h3, h4, h6, h7, h5]
    · subst h
      simp [map_checked, h1, h2, h3, h4, h5, h6, h7]
  · intro hcs hr hss hee out
    subst hee
    have hes : es = [] := List.eq_nil_of_length_eq_zero (by simpa using h3)
    have hev : ev = [] := List.eq_nil_of_length_eq_zero (by simpa using h4.symm)
    subst hes; subst hev
    have hne : ¬ (cs.isEmpty ∨ r.isEmpty ∨ ss.isEmpty) := by
      simp [List.isEmpty_iff, hcs, hr, hss]
    simp only [map_checked, h1, h2, h5, h6, h7, and_self, not_true_eq_false,
      if_false, List.length_nil, hne, List.getLast?_nil]
    split
    · simp
    · simp

/-- Witness: C7 at concrete inputs — with no carb entries the call returns
`([], [], [])`, and with one carb entry, non-empty schedules and an empty
effect timeline it does not return `.ok`. -/
theorem C7_empty_input_behaviour_witness :
    map_checked [] [] [] [] [] [] [0] [10] [0] [1440] [50] 1 180 10
      = .ok ([], [], []) ∧
    map_checked [0] [10] [180] [] [] [] [0] [10] [0] [1440] [50] 1 180 10
      ≠ .ok ([], [], []) := by
  constructor
  · exact (C7_empty_input_behaviour [] [] [] [] [] [] [0] [10] [0] [1440]
      [50] 1 180 10 rfl rfl rfl rfl rfl rfl rfl).1 (Or.inl rfl)
  · exact (C7_empty_input_behaviour [0] [10] [180] [] [] [] [0] [10] [0]
      [1440] [50] 1 180 10 rfl rfl rfl rfl rfl rfl rfl).2
      (by simp) (by simp) (by simp) rfl ([], [], [])

/-- C9: the dose-processing window of get_glucose_effects is back-dated from
the requested start by the model's full duration of action —
`insulin_model[0]` hours for the one-parameter Walsh model, `insulin_model[0]`
minutes otherwise — and every effect date in the returned sequence lies
within `[start_date, end_date]` (the result is post-filtered to the
requested window, whatever the upstream dose pipeline produced). -/
theorem C9_backdated_window_and_filtered_output
    (pipeline : ℚ → List ℚ × List ℚ) (insulin_model : List ℚ)
    (start_date : ℚ) (end_date : Option ℚ) (dia x : ℚ) (rest : List ℚ) :
    dose_window_start [dia] start_date = .ok (start_date - 60 * dia) ∧
    dose_window_start (dia :: x :: rest) start_date
      = .ok (start_date - dia) ∧
    (∀ out, get_glucose_effects pipeline insulin_model start_date end_date
        = .ok out →
      ∀ d ∈ out.1, start_date ≤ d ∧
        ∀ eb, end_date = some eb → d ≤ eb) := by
  refine ⟨rfl, rfl, ?_⟩
  intro out hout d hd
  unfold get_glucose_effects at hout
  cases hds : dose_window_start insulin_model start_date with
  | error e =>
    rw [hds] at hout
    exact absurd hout (by simp)
  | ok ds =>
    rw [hds] at hout
    simp only [Except.ok.injEq] at hout
    subst hout
    simp only [filter_date_range, List.mem_map] at hd
    obtain ⟨p, hp, hpd⟩ := hd
    have hkeep := List.of_mem_filter hp
    simp only [Bool.and_eq_true, decide_eq_true_eq] at hkeep
    subst hpd
    refine ⟨hkeep.1, ?_⟩
    intro eb heb
    rcases hkeep with ⟨-, hk2⟩
    rw [heb] at hk2
    simp only [decide_eq_true_eq] at hk2
    exact le_of_lt hk2

/-- Witness: C9 at the Walsh model `[6]`, window start 50, window end 80, and
a pipeline producing effect dates 0, 100 and 60: the returned dates reduce to
`[60]` and the theorem places 60 inside `[50, 80]`. -/
theorem C9_backdated_window_and_filtered_output_witness :
    (50 : ℚ) ≤ 60 ∧ (60 : ℚ) ≤ 80 := by
  have h := (C9_backdated_window_and_filtered_output
      (fun _ => ([0, 100, 60], [1, 2, 3])) [6] 50 (some 80) 6 0 []).2.2
      ([60], [3]) (by rfl) 60 (by simp)
  exact ⟨h.1, h.2 80 rfl⟩

end PyLoopKit
